import Mathlib

/-!
Shallow embedding of the incremental plot-update engine of `ndscan/applet.py`
(classes `_XYSeries`, `_XYPlotWidget`, `_extract_scalar_channels`,
`_Rolling1DSeries`, `_RollingPlotWidget`, `_MainWidget`), together with
theorems settling the specification claims about it.

Modelling conventions:
- Python numbers are modelled as `Int` (the claims only involve ordering,
  `min`, and doubling, which do not depend on float rounding).
- A dataset snapshot maps keys to `(present, value)` pairs; the engine only
  ever reads the `[1]` component.  The recognized key families are modelled
  as fields of `Snapshot`; JSON decoding of the `axes` and `channels` blobs
  is external (`json.loads`), so those fields carry the decoded value, with
  `none` standing for a missing key or a falsy (empty) blob.
- Python dicts are modelled as association lists in insertion order; the
  iteration over the Python set `data_names` in `_extract_scalar_channels`
  is modelled in channel-declaration order (the claims proved below do not
  depend on the iteration order: conflicts are detected in every order, and
  the conflict-free result is order-independent as a mapping).
- Mutation is modelled by explicit state passing.  Python exceptions are
  modelled with `Except` / an `Option PyErr` component; a method that can
  raise after having already mutated part of the state returns the mutated
  state together with the escaping exception, mirroring the fact that a
  Python exception does not roll back attribute assignments.
- Side effects on the pyqtgraph plot objects (`setData`, `addItem`) are
  modelled by the `rendered*` fields holding the data last passed to
  `setData`; the purely visual chrome (labels, crosshair, context menus,
  colors) is not modelled.
-/

/-- Python exceptions relevant to the modelled code paths. -/
inductive PyErr where
  | valueError (msg : String)
  | keyError (key : String)
  | nameError (name : String)
  | attributeError (name : String)
  | assertionError (msg : String)
deriving DecidableEq, Repr

/-- One channel spec from the decoded `channels` JSON blob:
`spec["type"]` and `spec.get("display_hints", {}).get("error_bar_for", "")`.
`errorBarFor = ""` models an absent (or falsy) `error_bar_for` hint. -/
structure ChannelSpec where
  channelType : String
  errorBarFor : String
deriving DecidableEq, Repr

/-- One decoded axis descriptor from the `axes` JSON blob.  The coordinator
passes it verbatim to the X-Y plot widget, so it is modelled opaquely. -/
abbrev Axis := String

/-- The dataset snapshot as seen through the key families the engine reads.
Each field documents the dataset key(s) it models and the convention for a
missing key. -/
structure Snapshot where
  /-- Key `ndscan.fragment_fqn`; `none` models a missing key or falsy value. -/
  fragmentFqn : Option String
  /-- Key `ndscan.axes`, decoded; `none` models a missing key or falsy blob. -/
  axes : Option (List Axis)
  /-- Key `ndscan.channels`, decoded; `none` models a missing key or falsy blob. -/
  channels : Option (List (String × ChannelSpec))
  /-- Key `ndscan.points.axis_0`; `[]` models a missing key or falsy value
  (the code only tests it for falsiness before use). -/
  axis0 : List Int
  /-- Keys `ndscan.points.channel_<name>`; read via
  `data.get(..., (False, []))[1]`, so a missing key yields `[]`. -/
  pointsChannel : String → List Int
  /-- Key `ndscan.point_phase`; read via `data.get(..., (False, None))[1]`,
  so `none` models a missing key or a `None` value. -/
  pointPhase : Option Bool
  /-- Keys `ndscan.point.<name>`; read via direct indexing `data[...]`, so
  `none` models a missing key, which raises `KeyError`. -/
  point : String → Option Int

/-- A snapshot with no recognized keys present. -/
def emptySnapshot : Snapshot :=
  { fragmentFqn := none, axes := none, channels := none, axis0 := [],
    pointsChannel := fun _ => [], pointPhase := none, point := fun _ => none }

/-- The last `n` elements of a list (Python slice `l[-n:]` for `n ≥ 1`,
and the whole list when `n ≥ len(l)`). -/
def takeLast (n : Nat) (l : List α) : List α := l.drop (l.length - n)

/-- Model of `np.arange(-n, 0)`: the integer offsets `[-n, ..., -1]`. -/
def xIndices (n : Nat) : List Int :=
  (List.range n).map (fun (i : Nat) => (i : Int) - (n : Int))

theorem takeLast_length (n : Nat) (l : List α) :
    (takeLast n l).length = l.length - (l.length - n) := by
  simp [takeLast]

theorem takeLast_of_length_le {n : Nat} {l : List α} (h : l.length ≤ n) :
    takeLast n l = l := by
  simp [takeLast, Nat.sub_eq_zero_of_le h]

theorem xIndices_length (n : Nat) : (xIndices n).length = n := by
  rw [xIndices, List.length_map, List.length_range]

/-- The target of a numeric channel's `error_bar_for` hint is a string;
numeric means `spec["type"] in ["int", "float"]`. -/
def isNumericSpec (c : ChannelSpec) : Bool :=
  c.channelType == "int" || c.channelType == "float"

/-- The numeric channels of a decoded `channels` blob, in declaration order
(the Python set `data_names` before error-bar removal). -/
def numericChannels (channels : List (String × ChannelSpec)) :
    List (String × ChannelSpec) :=
  channels.filter (fun c => isNumericSpec c.2)

/-- The error bar message raised on a conflicting target `t`:
`"More than one set of error bars specified for channel '{t}'"`. -/
def conflictMsg (t : String) : String :=
  "More than one set of error bars specified for channel \x27" ++ t ++ "\x27"

/-- The loop body of `_extract_scalar_channels` building `error_bar_names`:
for each (numeric) channel declaring a non-falsy `error_bar_for` target,
record `target -> channel name`, raising `ValueError` when the target was
already recorded. -/
def buildErrorBarNames :
    List (String × ChannelSpec) → List (String × String) →
    Except PyErr (List (String × String))
  | [], acc => .ok acc
  | c :: rest, acc =>
    let eb := c.2.errorBarFor
    if eb = "" then buildErrorBarNames rest acc
    else if (acc.lookup eb).isSome then
      .error (.valueError (conflictMsg eb))
    else buildErrorBarNames rest (acc ++ [(eb, c.1)])

/-- Model of `_extract_scalar_channels(channels)`: the data-channel names
(numeric channels minus those declared as error-bar sources) together with
the `target -> error-bar channel` mapping. -/
def extractScalarChannels (channels : List (String × ChannelSpec)) :
    Except PyErr (List String × List (String × String)) :=
  match buildErrorBarNames (numericChannels channels) [] with
  | .error e => .error e
  | .ok ebn =>
    .ok (((numericChannels channels).map Prod.fst).filter
           (fun n => !((ebn.map Prod.snd).contains n)),
         ebn)

/-- The `(target, source)` pairs contributed by a list of (numeric) channels,
in declaration order. -/
def ebPairsOf (l : List (String × ChannelSpec)) : List (String × String) :=
  (l.filter (fun c => c.2.errorBarFor != "")).map (fun c => (c.2.errorBarFor, c.1))

/-- The declared error-bar targets of the numeric channels, with multiplicity. -/
def tgtsOf (channels : List (String × ChannelSpec)) : List String :=
  (ebPairsOf (numericChannels channels)).map Prod.fst

/-- Model of `np.argsort(xs)`: a permutation of the indices `0..len(xs)-1`
ordering `xs` non-decreasingly.  The source uses numpy's default
(unstable) quicksort; the order of tied indices is not observable through
any claim, so a sort of the index list is used. -/
def argsort (xs : List Int) : List Nat :=
  (List.range xs.length).insertionSort (fun i j => xs.getD i 0 ≤ xs.getD j 0)

/-- State of one `_XYSeries`: the immutable configuration passed to
`__init__` (`data_name`, `error_bar_name`, whether an `error_bar_item`
exists, `plot_left_to_right`), the mutable `num_current_points`, and the
data last handed to `setData` on the scatter / error-bar items. -/
structure XYSeries where
  dataName : String
  errorBarName : Option String
  hasErrorBarItem : Bool
  plotLeftToRight : Bool
  numCurrentPoints : Nat
  renderedX : List Int
  renderedY : List Int
  renderedErrH : List Int
deriving DecidableEq, Repr

/-- `num_to_show` in `_XYSeries.update`: the minimum of the lengths of the
x sequence, the series' y channel, and (when an error-bar item exists) the
error channel. -/
def XYSeries.numToShowOf (s : XYSeries) (xData : List Int) (data : Snapshot) : Nat :=
  let yData := data.pointsChannel s.dataName
  if s.hasErrorBarItem then
    min (min xData.length yData.length)
        (data.pointsChannel (s.errorBarName.getD "")).length
  else min xData.length yData.length

/-- The re-rendering part of `_XYSeries.update` (reached when `num_to_show`
differs from `num_current_points`).  With `plot_left_to_right` the first
`num_to_show` x values are argsorted and x, y (and error heights) are
re-indexed by that order; otherwise the raw prefixes are rendered, with
error heights doubled (`2 * y_err`), as in the source. -/
def XYSeries.render (s : XYSeries) (xData : List Int) (data : Snapshot)
    (numToShow : Nat) : XYSeries :=
  let yData := data.pointsChannel s.dataName
  let yErr := data.pointsChannel (s.errorBarName.getD "")
  if s.plotLeftToRight then
    let order := argsort (xData.take numToShow)
    { s with
      renderedX := order.map (fun i => xData.getD i 0),
      renderedY := order.map (fun i => yData.getD i 0),
      renderedErrH :=
        if s.hasErrorBarItem then order.map (fun i => yErr.getD i 0)
        else s.renderedErrH,
      numCurrentPoints := numToShow }
  else
    { s with
      renderedX := xData.take numToShow,
      renderedY := yData.take numToShow,
      renderedErrH :=
        if s.hasErrorBarItem then (yErr.take numToShow).map (fun e => 2 * e)
        else s.renderedErrH,
      numCurrentPoints := numToShow }

/-- Model of `_XYSeries.update(x_data, data)`: a no-op when `num_to_show`
equals `num_current_points`, a full re-render otherwise. -/
def XYSeries.update (s : XYSeries) (xData : List Int) (data : Snapshot) : XYSeries :=
  let numToShow := s.numToShowOf xData data
  if numToShow = s.numCurrentPoints then s
  else s.render xData data numToShow

/-- A series as constructed by `_XYPlotWidget.data_changed`: error-bar item
present iff `error_bar_names.get(name)` is, and `plot_left_to_right=False`
(the literal last constructor argument at the call site). -/
def mkXYSeries (name : String) (ebName : Option String) : XYSeries :=
  { dataName := name, errorBarName := ebName, hasErrorBarItem := ebName.isSome,
    plotLeftToRight := false, numCurrentPoints := 0,
    renderedX := [], renderedY := [], renderedErrH := [] }

/-- State of `_XYPlotWidget` relevant to the engine: the lazy-construction
flag and the owned series list. -/
structure XYWidgetState where
  seriesInitialised : Bool
  series : List XYSeries
deriving DecidableEq, Repr

/-- A freshly constructed `_XYPlotWidget`. -/
def mkXYWidget : XYWidgetState :=
  { seriesInitialised := false, series := [] }

/-- The tail of `_XYPlotWidget.data_changed`: read `ndscan.points.axis_0`,
return if falsy, else update every series. -/
def xyDispatchPoints (w : XYWidgetState) (data : Snapshot) :
    XYWidgetState × Option PyErr :=
  if data.axis0 = [] then (w, none)
  else ({ w with series := w.series.map (fun s => s.update data.axis0 data) }, none)

/-- Model of `_XYPlotWidget.data_changed(data, mods)`.  On the first call
with a channels blob, runs the extractor and constructs the series.  The
source's `except ValueError` handler executes `self.emit.error(str(e))`:
the widget has no `emit` attribute (the Qt idiom is `self.error.emit(...)`),
so the lookup raises `AttributeError`, which escapes `data_changed`; even
if the emit succeeded, the handler does not return, and the following loop
would read the never-assigned local `data_names`, raising `NameError`.  The
escaping exception is modelled as `PyErr.attributeError "emit"`; no state
was mutated at that point. -/
def xyDataChanged (w : XYWidgetState) (data : Snapshot) :
    XYWidgetState × Option PyErr :=
  if w.seriesInitialised then xyDispatchPoints w data
  else
    match data.channels with
    | none => (w, none)
    | some channels =>
      match extractScalarChannels channels with
      | .error (.valueError _) => (w, some (.attributeError "emit"))
      | .error e => (w, some e)
      | .ok (dataNames, errorBarNames) =>
        let newSeries := dataNames.map (fun name =>
          mkXYSeries name (errorBarNames.lookup name))
        xyDispatchPoints
          { w with series := w.series ++ newSeries, seriesInitialised := true }
          data

/-- State of one `_Rolling1DSeries`: configuration, the history length
`len(self.x_indices)` set by `set_history_length`, the `(value, error)`
buffer rows of `self.values` (the error column present iff an error-bar
item exists), and the data last handed to `setData`. -/
structure RollingSeries where
  dataName : String
  errorBarName : Option String
  hasErrorBarItem : Bool
  histLen : Nat
  values : List (Int × Option Int)
  renderedX : List Int
  renderedY : List Int
  renderedErrH : List Int
deriving DecidableEq, Repr

/-- A series as constructed by `_RollingPlotWidget.data_changed`:
`__init__` starts from an empty `(0, 2)`-shaped buffer and routes the
spinbox-provided history length (always ≥ 1) through `set_history_length`,
whose assertion then holds; `histLen` records the resulting
`len(self.x_indices)`. -/
def mkRollingSeries (name : String) (ebName : Option String)
    (historyLength : Nat) : RollingSeries :=
  { dataName := name, errorBarName := ebName, hasErrorBarItem := ebName.isSome,
    histLen := historyLength, values := [],
    renderedX := [], renderedY := [], renderedErrH := [] }

/-- The buffer-push part of `_Rolling1DSeries.append`, after the snapshot
reads succeeded: on the first point the buffer becomes `[p]`; at capacity
(`shape[0] == len(x_indices)`) the buffer is rolled left and the last row
replaced; otherwise the row is appended.  The subsequent `setData` calls
render the buffer against the right-aligned tail of `x_indices`. -/
def RollingSeries.pushPoint (s : RollingSeries) (p : Int × Option Int) :
    RollingSeries :=
  let values' :=
    if s.values.length = 0 then [p]
    else if s.values.length = s.histLen then s.values.tail ++ [p]
    else s.values ++ [p]
  { s with
    values := values',
    renderedX := takeLast values'.length (xIndices s.histLen),
    renderedY := values'.map (fun q => q.1),
    renderedErrH :=
      if s.hasErrorBarItem then values'.map (fun q => q.2.getD 0)
      else s.renderedErrH }

/-- Model of `_Rolling1DSeries.append(data)`: reads
`data["ndscan.point." + data_name]` (and, with an error-bar item,
`data["ndscan.point." + error_bar_name]`, doubling the magnitude before
storage); direct indexing raises `KeyError` on a missing key, before any
state is mutated. -/
def RollingSeries.append (s : RollingSeries) (data : Snapshot) :
    Except PyErr RollingSeries :=
  match data.point s.dataName with
  | none => .error (.keyError ("ndscan.point." ++ s.dataName))
  | some newData =>
    if s.hasErrorBarItem then
      match data.point (s.errorBarName.getD "") with
      | none => .error (.keyError ("ndscan.point." ++ s.errorBarName.getD ""))
      | some newErr => .ok (s.pushPoint (newData, some (2 * newErr)))
    else .ok (s.pushPoint (newData, none))

/-- Model of `_Rolling1DSeries.set_history_length(n)`: assert `n > 0`
(modelled as `AssertionError`), set `x_indices = arange(-n, 0)`, and
truncate the buffer to its last `n` rows if it holds more.  The display is
not refreshed here (no `setData` call in the source). -/
def RollingSeries.set_history_length (s : RollingSeries) (n : Int) :
    Except PyErr RollingSeries :=
  if n ≤ 0 then .error (.assertionError "Invalid history length")
  else
    .ok { s with
          histLen := n.toNat,
          values :=
            if n.toNat < s.values.length then takeLast n.toNat s.values
            else s.values }

/-- State of `_RollingPlotWidget`: lazy-construction flag, owned series,
the `point_phase` flag (initialised to `False` in `__init__`), and the
history-length spinbox value (default 100) read at series construction. -/
structure RollingWidgetState where
  seriesInitialised : Bool
  series : List RollingSeries
  pointPhase : Bool
  numHistoryBoxValue : Nat
deriving DecidableEq, Repr

/-- A freshly constructed `_RollingPlotWidget`. -/
def mkRollingWidget : RollingWidgetState :=
  { seriesInitialised := false, series := [], pointPhase := false,
    numHistoryBoxValue := 100 }

/-- The loop `for s in self.series: s.append(data)`: series are mutated in
place one by one, so a raise in the middle leaves the earlier series
updated, the rest untouched, and the exception escaping. -/
def appendAll : List RollingSeries → Snapshot → List RollingSeries × Option PyErr
  | [], _ => ([], none)
  | s :: rest, data =>
    match s.append data with
    | .error e => (s :: rest, some e)
    | .ok s' =>
      let (rest', e) := appendAll rest data
      (s' :: rest', e)

/-- The tail of `_RollingPlotWidget.data_changed`: read `point_phase`; if
present and different from the stored flag, append the snapshot to every
series and then store the new flag (not stored when the loop raised). -/
def rollingPhaseStep (w : RollingWidgetState) (data : Snapshot) :
    RollingWidgetState × Option PyErr :=
  match data.pointPhase with
  | none => (w, none)
  | some phase =>
    if phase = w.pointPhase then (w, none)
    else
      match appendAll w.series data with
      | (series', none) => ({ w with series := series', pointPhase := phase }, none)
      | (series', some e) => ({ w with series := series' }, some e)

/-- Model of `_RollingPlotWidget.data_changed(data, mods)`; the lazy series
construction and the broken `except ValueError` handler are exactly as in
`xyDataChanged` (same slip in the source: `self.emit.error(str(e))`). -/
def rollingDataChanged (w : RollingWidgetState) (data : Snapshot) :
    RollingWidgetState × Option PyErr :=
  if w.seriesInitialised then rollingPhaseStep w data
  else
    match data.channels with
    | none => (w, none)
    | some channels =>
      match extractScalarChannels channels with
      | .error (.valueError _) => (w, some (.attributeError "emit"))
      | .error e => (w, some e)
      | .ok (dataNames, errorBarNames) =>
        let newSeries := dataNames.map (fun name =>
          mkRollingSeries name (errorBarNames.lookup name) w.numHistoryBoxValue)
        rollingPhaseStep
          { w with series := w.series ++ newSeries, seriesInitialised := true }
          data

/-- The live plot widget owned by `_MainWidget`: either the X-Y variant
(remembering the axis descriptor it was bound to) or the rolling variant. -/
inductive PlotWidgetState where
  | xy (axis : Axis) (w : XYWidgetState)
  | rolling (w : RollingWidgetState)
deriving DecidableEq, Repr

/-- Whether two plot widgets are of the same variant, bound to the same
axis descriptor in the X-Y case (the inner series state may differ). -/
def PlotWidgetState.sameKind : PlotWidgetState → PlotWidgetState → Bool
  | .xy a _, .xy b _ => a == b
  | .rolling _, .rolling _ => true
  | _, _ => false

/-- Dispatch `data_changed` to the live plot widget. -/
def plotDataChanged : PlotWidgetState → Snapshot → PlotWidgetState × Option PyErr
  | .xy a w, data =>
    let (w', e) := xyDataChanged w data
    (.xy a w', e)
  | .rolling w, data =>
    let (w', e) := rollingDataChanged w data
    (.rolling w', e)

/-- State of `_MainWidget`: the title / plot-initialisation flags, the
owned plot widget, and the message label (`messageShown` records whether
the stacked widget currently shows the label rather than the plot). -/
structure MainState where
  titleSet : Bool
  windowTitle : String
  plotInitialised : Bool
  plot : Option PlotWidgetState
  messageText : String
  messageShown : Bool

/-- A freshly constructed `_MainWidget` for the given rid. -/
def mkMainState (rid : String) : MainState :=
  { titleSet := false, windowTitle := "ndscan plot", plotInitialised := false,
    plot := none,
    messageText := "Waiting for ndscan metadata for rid " ++ rid ++ "…",
    messageShown := true }

/-- The plot-initialisation step of `_MainWidget.data_changed`: on a decoded
`axes` blob, instantiate the rolling widget (length 0) or the X-Y widget
bound to `axes[0]` (length 1), or display the unsupported-dimension message
and return (length ≥ 2).  The returned flag says whether execution
continues to the dispatch. -/
def mainAxesStep (m : MainState) (data : Snapshot) : MainState × Bool :=
  if m.plotInitialised then (m, true)
  else
    match data.axes with
    | none => (m, false)
    | some axes =>
      if axes.length = 0 then
        ({ m with plot := some (.rolling mkRollingWidget),
                  plotInitialised := true, messageShown := false }, true)
      else if axes.length = 1 then
        ({ m with plot := some (.xy (axes.getD 0 "") mkXYWidget),
                  plotInitialised := true, messageShown := false }, true)
      else
        ({ m with
           messageText :=
             toString axes.length ++ "-dimensional scans are not yet supported",
           messageShown := true }, false)

/-- The final `self.plot.data_changed(data, mods)` dispatch. -/
def mainDispatch (m : MainState) (data : Snapshot) : MainState × Option PyErr :=
  match m.plot with
  | none => (m, none)
  | some p =>
    let (p', e) := plotDataChanged p data
    ({ m with plot := some p' }, e)

/-- The part of `_MainWidget.data_changed` after the title step. -/
def mainAfterTitle (m : MainState) (data : Snapshot) : MainState × Option PyErr :=
  let (m', proceed) := mainAxesStep m data
  if proceed then mainDispatch m' data else (m', none)

/-- Model of `_MainWidget.data_changed(data, mods)`: the title key unlocks
progress, then the axes step, then dispatch to the live plot widget. -/
def mainDataChanged (m : MainState) (data : Snapshot) : MainState × Option PyErr :=
  if m.titleSet then mainAfterTitle m data
  else
    match data.fragmentFqn with
    | none => (m, none)
    | some fqn =>
      mainAfterTitle
        { m with titleSet := true, windowTitle := fqn ++ " – ndscan" } data

theorem lookup_eq_none_of_not_mem_keys {l : List (String × String)} {k : String}
    (h : k ∉ l.map Prod.fst) : l.lookup k = none := by
  induction l with
  | nil => rfl
  | cons c rest ih =>
    simp only [List.map_cons, List.mem_cons, not_or] at h
    have hbeq : (k == c.1) = false := by
      simpa using h.1
    simp only [List.lookup, hbeq]
    exact ih h.2

theorem lookup_eq_some_iff_of_nodup_keys {l : List (String × String)}
    (h : (l.map Prod.fst).Nodup) (k v : String) :
    l.lookup k = some v ↔ (k, v) ∈ l := by
  induction l with
  | nil => simp [List.lookup]
  | cons c rest ih =>
    rcases c with ⟨a, b⟩
    simp only [List.map_cons, List.nodup_cons] at h
    by_cases hk : k = a
    · subst hk
      simp only [List.lookup, beq_self_eq_true, List.mem_cons]
      constructor
      · intro h'
        exact Or.inl (by injection h' with h''; rw [h''])
      · rintro (h' | h')
        · injection h' with h1 h2
          rw [h2]
        · exact absurd (List.mem_map_of_mem Prod.fst h') h.1
    · have hbeq : (k == a) = false := by
        simpa using hk
      simp only [List.lookup, hbeq, List.mem_cons]
      rw [ih h.2]
      constructor
      · exact Or.inr
      · rintro (h' | h')
        · exact absurd (congrArg Prod.fst h') (by simpa using hk)
        · exact h'

theorem ebPairsOf_cons_of_declared {c : String × ChannelSpec}
    (l : List (String × ChannelSpec)) (h : ¬ c.2.errorBarFor = "") :
    ebPairsOf (c :: l) = (c.2.errorBarFor, c.1) :: ebPairsOf l := by
  simp [ebPairsOf, List.filter_cons, h]

theorem ebPairsOf_cons_of_undeclared {c : String × ChannelSpec}
    (l : List (String × ChannelSpec)) (h : c.2.errorBarFor = "") :
    ebPairsOf (c :: l) = ebPairsOf l := by
  simp [ebPairsOf, List.filter_cons, h]

theorem buildErrorBarNames_ok (l : List (String × ChannelSpec)) :
    ∀ acc : List (String × String),
    (acc.map Prod.fst ++ (ebPairsOf l).map Prod.fst).Nodup →
    buildErrorBarNames l acc = .ok (acc ++ ebPairsOf l) := by
  induction l with
  | nil =>
    intro acc _
    simp [buildErrorBarNames, ebPairsOf]
  | cons c rest ih =>
    intro acc h
    by_cases he : c.2.errorBarFor = ""
    · rw [ebPairsOf_cons_of_undeclared rest he] at h ⊢
      rw [buildErrorBarNames]
      simp only [he, if_true]
      exact ih acc h
    · rw [ebPairsOf_cons_of_declared rest he] at h ⊢
      simp only [List.map_cons] at h
      have hmid := (List.nodup_middle).mp h
      rcases List.nodup_cons.mp hmid with ⟨hnotin, _⟩
      have hnotacc : c.2.errorBarFor ∉ acc.map Prod.fst := fun hm =>
        hnotin (List.mem_append.mpr (Or.inl hm))
      have hlook : (acc.lookup c.2.errorBarFor).isSome = false := by
        rw [lookup_eq_none_of_not_mem_keys hnotacc]
        rfl
      rw [buildErrorBarNames]
      simp only [he, if_false, hlook, Bool.false_eq_true, if_false]
      have happ : ((acc ++ [(c.2.errorBarFor, c.1)]).map Prod.fst
            ++ (ebPairsOf rest).map Prod.fst).Nodup := by
        rw [List.append_cons] at h
        simpa only [List.map_append, List.map_cons, List.map_nil] using h
      rw [ih (acc ++ [(c.2.errorBarFor, c.1)]) happ]
      rw [List.append_assoc]
      rfl

theorem lookup_isSome_of_mem_keys {l : List (String × String)} {k : String}
    (h : k ∈ l.map Prod.fst) : (l.lookup k).isSome = true := by
  induction l with
  | nil => simp at h
  | cons c rest ih =>
    by_cases hk : k = c.1
    · have hbeq : (k == c.1) = true := by
        simpa using hk
      simp [List.lookup, hbeq]
    · have hbeq : (k == c.1) = false := by
        simpa using hk
      simp only [List.map_cons, List.mem_cons] at h
      simp only [List.lookup, hbeq]
      exact ih (h.resolve_left hk)

theorem buildErrorBarNames_conflict (l : List (String × ChannelSpec)) :
    ∀ acc : List (String × String),
    (acc.map Prod.fst).Nodup →
    ¬ (acc.map Prod.fst ++ (ebPairsOf l).map Prod.fst).Nodup →
    ∃ t, buildErrorBarNames l acc = .error (.valueError (conflictMsg t)) ∧
      2 ≤ (acc.map Prod.fst ++ (ebPairsOf l).map Prod.fst).count t := by
  induction l with
  | nil =>
    intro acc hacc hdup
    exact absurd (by simpa [ebPairsOf] using hacc) hdup
  | cons c rest ih =>
    intro acc hacc hdup
    by_cases he : c.2.errorBarFor = ""
    · rw [ebPairsOf_cons_of_undeclared rest he] at hdup ⊢
      rw [buildErrorBarNames]
      simp only [he, if_true]
      exact ih acc hacc hdup
    · rw [ebPairsOf_cons_of_declared rest he] at hdup ⊢
      simp only [List.map_cons] at hdup ⊢
      by_cases hin : c.2.errorBarFor ∈ acc.map Prod.fst
      · refine ⟨c.2.errorBarFor, ?_, ?_⟩
        · rw [buildErrorBarNames]
          simp only [he, if_false, lookup_isSome_of_mem_keys hin, if_true]
        · rw [List.count_append, List.count_cons_self]
          have h1 : 1 ≤ (acc.map Prod.fst).count c.2.errorBarFor :=
            List.count_pos_iff.mpr hin
          omega
      · have hlook : (acc.lookup c.2.errorBarFor).isSome = false := by
          rw [lookup_eq_none_of_not_mem_keys hin]
          rfl
        rw [buildErrorBarNames]
        simp only [he, if_false, hlook, Bool.false_eq_true, if_false]
        have hacc' : ((acc ++ [(c.2.errorBarFor, c.1)]).map Prod.fst).Nodup := by
          rw [List.map_append]
          rw [List.nodup_append]
          refine ⟨hacc, List.nodup_singleton _, ?_⟩
          intro a ha hmem
          simp only [List.map_cons, List.map_nil, List.mem_singleton] at hmem
          rw [hmem] at ha
          exact hin ha
        have hdup' :
            ¬ ((acc ++ [(c.2.errorBarFor, c.1)]).map Prod.fst
               ++ (ebPairsOf rest).map Prod.fst).Nodup := by
          rw [List.append_cons] at hdup
          simpa only [List.map_append, List.map_cons, List.map_nil] using hdup
        rcases ih _ hacc' hdup' with ⟨t, herr, hcount⟩
        refine ⟨t, herr, ?_⟩
        rw [List.append_cons]
        simpa only [List.map_append, List.map_cons, List.map_nil] using hcount

theorem extractScalarChannels_ok_of_free (channels : List (String × ChannelSpec))
    (hfree : (tgtsOf channels).Nodup) :
    extractScalarChannels channels =
      .ok ((((numericChannels channels).map Prod.fst).filter
              (fun n =>
                !(((ebPairsOf (numericChannels channels)).map Prod.snd).contains n))),
           ebPairsOf (numericChannels channels)) := by
  have h := buildErrorBarNames_ok (numericChannels channels) []
    (by simpa [tgtsOf] using hfree)
  unfold extractScalarChannels
  rw [h]
  rfl

theorem spec_eq_of_nodup_keys {β : Type} {l : List (String × β)}
    (h : (l.map Prod.fst).Nodup) {n : String} {s₁ s₂ : β}
    (h1 : (n, s₁) ∈ l) (h2 : (n, s₂) ∈ l) : s₁ = s₂ := by
  induction l with
  | nil => cases h1
  | cons c rest ih =>
    simp only [List.map_cons, List.nodup_cons] at h
    rcases List.mem_cons.mp h1 with e1 | m1 <;> rcases List.mem_cons.mp h2 with e2 | m2
    · rw [← e1] at e2
      injection e2 with _ h'
      rw [h']
    · rw [← e1] at h
      exact absurd (List.mem_map_of_mem Prod.fst m2) h.1
    · rw [← e2] at h
      exact absurd (List.mem_map_of_mem Prod.fst m1) h.1
    · exact ih h.2 m1 m2

theorem numeric_keys_nodup {channels : List (String × ChannelSpec)}
    (h : (channels.map Prod.fst).Nodup) :
    ((numericChannels channels).map Prod.fst).Nodup :=
  ((List.filter_sublist channels).map Prod.fst).nodup h

/-- C3: for a conflict-free channel mapping, the Channel Schema Extractor
returns (a) exactly the numeric channels that do not themselves declare an
`error_bar_for` target (i.e. are not serving as the error-bar source of
another channel), and (b) the mapping from a target (data-channel) name to
the channel supplying its error bars. -/
theorem c3_extractor_partition (channels : List (String × ChannelSpec))
    (hnodup : (channels.map Prod.fst).Nodup)
    (hfree : (tgtsOf channels).Nodup) :
    ∃ dataNames ebn,
      extractScalarChannels channels = .ok (dataNames, ebn) ∧
      (∀ n, n ∈ dataNames ↔
        ∃ spec, (n, spec) ∈ channels ∧ isNumericSpec spec = true ∧
          spec.errorBarFor = "") ∧
      (∀ t s, ebn.lookup t = some s ↔
        ∃ spec, (s, spec) ∈ channels ∧ isNumericSpec spec = true ∧
          spec.errorBarFor = t ∧ t ≠ "") := by
  refine ⟨_, _, extractScalarChannels_ok_of_free channels hfree, ?_, ?_⟩
  · intro n
    constructor
    · intro hmem
      rw [List.mem_filter] at hmem
      rcases hmem with ⟨hmem1, hmem2⟩
      rcases List.mem_map.mp hmem1 with ⟨c, hcmem, hceq⟩
      have hnotin : n ∉ (ebPairsOf (numericChannels channels)).map Prod.snd := by
        intro hn
        rw [Bool.not_eq_eq_eq_not, Bool.not_true] at hmem2
        simp only [List.contains_eq_any_beq, List.any_eq_false, beq_iff_eq] at hmem2
        exact hmem2 n hn rfl
      rcases List.mem_filter.mp hcmem with ⟨hchan, hnum⟩
      refine ⟨c.2, ?_, hnum, ?_⟩
      · rw [show (n, c.2) = c from by rw [← hceq]]
        exact hchan
      · by_contra hne
        refine hnotin ?_
        rw [ebPairsOf, List.map_map]
        refine List.mem_map.mpr ⟨c, List.mem_filter.mpr ⟨hcmem, ?_⟩, hceq⟩
        simpa using hne
    · rintro ⟨spec, hmem, hnum, heb⟩
      rw [List.mem_filter]
      have hcm : (n, spec) ∈ numericChannels channels :=
        List.mem_filter.mpr ⟨hmem, hnum⟩
      constructor
      · exact List.mem_map.mpr ⟨(n, spec), hcm, rfl⟩
      · rw [Bool.not_eq_eq_eq_not, Bool.not_true]
        simp only [List.contains_eq_any_beq, List.any_eq_false, beq_iff_eq]
        intro x hx hxeq
        rw [ebPairsOf, List.map_map] at hx
        rcases List.mem_map.mp hx with ⟨c, hcmem', hceq'⟩
        rcases List.mem_filter.mp hcmem' with ⟨hcm', hdecl⟩
        rcases List.mem_filter.mp hcm' with ⟨hchan', hnum'⟩
        rw [← hxeq] at hceq'
        have hc1 : c.1 = n := hceq'
        have : c.2 = spec := by
          refine spec_eq_of_nodup_keys hnodup ?_ hmem
          rw [show (n, c.2) = c from by rw [← hc1]]
          exact hchan'
        rw [this] at hdecl
        rw [heb] at hdecl
        simp at hdecl
  · intro t s
    rw [lookup_eq_some_iff_of_nodup_keys (by simpa [tgtsOf] using hfree)]
    constructor
    · intro hmem
      rw [ebPairsOf] at hmem
      rcases List.mem_map.mp hmem with ⟨c, hcmem, hceq⟩
      rcases List.mem_filter.mp hcmem with ⟨hcm, hdecl⟩
      rcases List.mem_filter.mp hcm with ⟨hchan, hnum⟩
      injection hceq with hceq1 hceq2
      refine ⟨c.2, ?_, hnum, hceq1, ?_⟩
      · rw [show (s, c.2) = c from by rw [← hceq2]]
        exact hchan
      · rw [← hceq1]
        simpa using hdecl
    · rintro ⟨spec, hmem, hnum, heb, hne⟩
      rw [ebPairsOf]
      refine List.mem_map.mpr ⟨(s, spec), ?_, ?_⟩
      · refine List.mem_filter.mpr ⟨List.mem_filter.mpr ⟨hmem, hnum⟩, ?_⟩
        simpa [heb] using hne
      · rw [heb]

/-- C4 (amended): whenever two distinct channels of numeric type declare
the same non-empty `error_bar_for` target, the extractor fails with a
`ValueError` whose message names a conflicted target (the first one
encountered in iteration order); when the given target is the only
conflicted one, the message names exactly it.  The duplication hypothesis
is phrased through the multiset of targets declared by numeric channels. -/
theorem c4_conflict_error (channels : List (String × ChannelSpec)) (t : String)
    (hdup : 2 ≤ (tgtsOf channels).count t) :
    (∃ t', 2 ≤ (tgtsOf channels).count t' ∧
      extractScalarChannels channels = .error (.valueError (conflictMsg t'))) ∧
    ((∀ u ∈ tgtsOf channels, u ≠ t → (tgtsOf channels).count u ≤ 1) →
      extractScalarChannels channels = .error (.valueError (conflictMsg t)) ∧
      conflictMsg t =
        "More than one set of error bars specified for channel \x27"
          ++ t ++ "\x27") := by
  have hnotnodup : ¬ (tgtsOf channels).Nodup := by
    intro h
    have := List.nodup_iff_count_le_one.mp h t
    omega
  rcases buildErrorBarNames_conflict (numericChannels channels) []
      (by simp) (by simpa [tgtsOf] using hnotnodup) with ⟨t', herr, hcount⟩
  simp only [List.map_nil, List.nil_append] at hcount
  have hcount' : 2 ≤ (tgtsOf channels).count t' := by
    simpa only [tgtsOf] using hcount
  have hext : extractScalarChannels channels =
      .error (.valueError (conflictMsg t')) := by
    unfold extractScalarChannels
    rw [herr]
  refine ⟨⟨t', hcount', hext⟩, ?_⟩
  intro huniq
  have ht' : t' = t := by
    by_contra hne
    have hmem : t' ∈ tgtsOf channels := List.count_pos_iff.mp (by omega)
    have := huniq t' hmem hne
    omega
  rw [ht'] at hext
  exact ⟨hext, rfl⟩

theorem argsort_sorted_getD (xs : List Int) :
    List.Pairwise (fun i j => xs.getD i 0 ≤ xs.getD j 0) (argsort xs) := by
  haveI : IsTotal Nat (fun i j => xs.getD i 0 ≤ xs.getD j 0) :=
    ⟨fun a b => le_total _ _⟩
  haveI : IsTrans Nat (fun i j => xs.getD i 0 ≤ xs.getD j 0) :=
    ⟨fun a b c hab hbc => le_trans hab hbc⟩
  exact List.sorted_insertionSort _ (List.range xs.length)

theorem argsort_mem_lt (xs : List Int) {i : Nat} (h : i ∈ argsort xs) :
    i < xs.length :=
  List.mem_range.mp ((List.perm_insertionSort _ _).subset h)

theorem getD_take_eq {l : List Int} {n i : Nat} (h : i < n) :
    (l.take n).getD i 0 = l.getD i 0 := by
  rw [List.getD_eq_getElem?_getD, List.getD_eq_getElem?_getD, List.getElem?_take,
    if_pos h]

theorem renderedX_render_sorted (s : XYSeries) (x : List Int) (data : Snapshot)
    (n : Nat) (hn : n ≤ x.length) (hltr : s.plotLeftToRight = true) :
    List.Pairwise (fun a b : Int => a ≤ b) ((s.render x data n).renderedX) := by
  unfold XYSeries.render
  simp only [hltr, if_true]
  rw [List.pairwise_map]
  have hlen : (x.take n).length = n := by
    rw [List.length_take]
    omega
  refine List.Pairwise.imp_of_mem ?_ (argsort_sorted_getD (x.take n))
  intro i j hi hj hij
  have hi' : i < n := by
    have := argsort_mem_lt (x.take n) hi
    omega
  have hj' : j < n := by
    have := argsort_mem_lt (x.take n) hj
    omega
  rw [getD_take_eq hi', getD_take_eq hj'] at hij
  exact hij

theorem numToShowOf_le_length (s : XYSeries) (x : List Int) (data : Snapshot) :
    s.numToShowOf x data ≤ x.length := by
  unfold XYSeries.numToShowOf
  cases h : s.hasErrorBarItem
  · simp only [h, Bool.false_eq_true, if_false]
    exact min_le_left _ _
  · simp only [h, if_true]
    exact le_trans (min_le_left _ _) (min_le_left _ _)

theorem render_fields (s : XYSeries) (x : List Int) (data : Snapshot) (n : Nat) :
    (s.render x data n).dataName = s.dataName ∧
    (s.render x data n).errorBarName = s.errorBarName ∧
    (s.render x data n).hasErrorBarItem = s.hasErrorBarItem ∧
    (s.render x data n).plotLeftToRight = s.plotLeftToRight ∧
    (s.render x data n).numCurrentPoints = n := by
  by_cases h : s.plotLeftToRight = true <;> simp [XYSeries.render, h]

theorem numToShowOf_render (s : XYSeries) (x : List Int) (data : Snapshot)
    (n : Nat) (x' : List Int) (data' : Snapshot) :
    (s.render x data n).numToShowOf x' data' = s.numToShowOf x' data' := by
  rcases render_fields s x data n with ⟨h1, h2, h3, _, _⟩
  unfold XYSeries.numToShowOf
  rw [h1, h2, h3]

/-- A channels blob with a single float channel named `ch`, together with a
full X-Y snapshot delivering X = [3, 1, 2] and Y = [30, 10, 20]. -/
def c1Snap : Snapshot :=
  { emptySnapshot with
    channels := some [("ch", ⟨"float", ""⟩)],
    axis0 := [3, 1, 2],
    pointsChannel := fun n => if n = "ch" then [30, 10, 20] else [] }

/-- The same series configuration but with `plot_left_to_right=True` (the
constructor flag the live call site leaves at `False`). -/
def ltrSeries : XYSeries := { mkXYSeries "ch" none with plotLeftToRight := true }

/-- C1 (counterexample): the series actually instantiated by
`_XYPlotWidget.data_changed` is constructed with `plot_left_to_right=False`,
so delivering X = [3, 1, 2], Y = [30, 10, 20] renders the points in arrival
order (3, 30), (1, 10), (2, 20): the rendered X values are not
non-decreasing, refuting the claim as stated. -/
theorem c1_counterexample :
    ((xyDataChanged mkXYWidget c1Snap).1.series.map
      (fun s => (s.plotLeftToRight, s.renderedX, s.renderedY))) =
      [(false, [3, 1, 2], [30, 10, 20])] ∧
    ¬ List.Pairwise (fun a b : Int => a ≤ b) [3, 1, 2] := by
  decide

/-- C1 (amended): a positional series constructed with
`plot_left_to_right=True` renders non-decreasing X values after any update
(preserving the sortedness invariant from any state whose rendered X values
are sorted, in particular from the freshly constructed empty series); the
series the X-Y Plot Controller actually constructs pass
`plot_left_to_right=False` and render in arrival order instead. -/
theorem c1_sorted_when_left_to_right (s : XYSeries) (x : List Int)
    (data : Snapshot) (hltr : s.plotLeftToRight = true)
    (hs : List.Pairwise (fun a b : Int => a ≤ b) s.renderedX) :
    List.Pairwise (fun a b : Int => a ≤ b) ((s.update x data).renderedX) := by
  unfold XYSeries.update
  by_cases h : s.numToShowOf x data = s.numCurrentPoints
  · simpa [h] using hs
  · simp only [h, if_false]
    exact renderedX_render_sorted s x data _ (numToShowOf_le_length s x data) hltr

/-- C1 (witness): with `plot_left_to_right=True`, the scenario X = [3, 1, 2],
Y = [30, 10, 20] renders sorted, as the points (1, 10), (2, 20), (3, 30). -/
theorem c1_witness :
    List.Pairwise (fun a b : Int => a ≤ b)
      ((ltrSeries.update [3, 1, 2] c1Snap).renderedX) ∧
    (ltrSeries.update [3, 1, 2] c1Snap).renderedX = [1, 2, 3] ∧
    (ltrSeries.update [3, 1, 2] c1Snap).renderedY = [10, 20, 30] :=
  ⟨c1_sorted_when_left_to_right ltrSeries [3, 1, 2] c1Snap rfl (by decide),
   by decide, by decide⟩

/-- A channels blob in which two float channels declare `error_bar_for`
for the same target `A`. -/
def c2Channels : List (String × ChannelSpec) :=
  [("a_err1", ⟨"float", "A"⟩), ("a_err2", ⟨"float", "A"⟩), ("A", ⟨"float", ""⟩)]

/-- A snapshot delivering that conflicting schema. -/
def c2Snap : Snapshot := { emptySnapshot with channels := some c2Channels }

/-- C2 (code bug): when the extractor raises on the delivered schema, both
plot controllers' `data_changed` let an exception escape instead of
emitting the error signal: the handler line `self.emit.error(str(e))`
mis-orders the Qt idiom `self.error.emit(...)` — the widget has no `emit`
attribute, so the lookup raises `AttributeError`; even if the emit
succeeded, the handler does not return and the following loop would read
the never-assigned local `data_names`, raising `NameError`.  This theorem
evaluates both controllers at the conflicting schema: the exception
escapes and the widget state is left unchanged. -/
theorem c2_extractor_failure_escapes :
    (xyDataChanged mkXYWidget c2Snap).2 = some (.attributeError "emit") ∧
    (xyDataChanged mkXYWidget c2Snap).1 = mkXYWidget ∧
    (rollingDataChanged mkRollingWidget c2Snap).2 = some (.attributeError "emit") ∧
    (rollingDataChanged mkRollingWidget c2Snap).1 = mkRollingWidget := by
  decide

/-- C7: `_XYSeries.update` is idempotent: a second call with the identical
`(x_sequence, snapshot)` pair recomputes the same `num_to_show`, finds it
equal to the count already rendered, and returns without any mutation. -/
theorem c7_update_idempotent (s : XYSeries) (x : List Int) (data : Snapshot) :
    (s.update x data).update x data = s.update x data := by
  by_cases h : s.numToShowOf x data = s.numCurrentPoints
  · have h1 : s.update x data = s := by
      unfold XYSeries.update
      simp [h]
    rw [h1]
    exact h1
  · have h2 : s.update x data = s.render x data (s.numToShowOf x data) := by
      unfold XYSeries.update
      simp [h]
    rw [h2]
    unfold XYSeries.update
    rw [numToShowOf_render s x data _ x data,
      (render_fields s x data (s.numToShowOf x data)).2.2.2.2]
    simp

/-- The example channel mapping of the claim:
`{A: float, A_err: float (error_bar_for=A), B: int, C: string}`. -/
def c3Channels : List (String × ChannelSpec) :=
  [("A", ⟨"float", ""⟩), ("A_err", ⟨"float", "A"⟩),
   ("B", ⟨"int", ""⟩), ("C", ⟨"string", ""⟩)]

/-- C3 (witness): on the claim's example the extractor returns the data
channels `{A, B}` and the mapping `{A -> A_err}`. -/
theorem c3_witness :
    (∃ dataNames ebn,
      extractScalarChannels c3Channels = .ok (dataNames, ebn) ∧
      (∀ n, n ∈ dataNames ↔
        ∃ spec, (n, spec) ∈ c3Channels ∧ isNumericSpec spec = true ∧
          spec.errorBarFor = "") ∧
      (∀ t s, ebn.lookup t = some s ↔
        ∃ spec, (s, spec) ∈ c3Channels ∧ isNumericSpec spec = true ∧
          spec.errorBarFor = t ∧ t ≠ "")) ∧
    extractScalarChannels c3Channels = .ok (["A", "B"], [("A", "A_err")]) :=
  ⟨c3_extractor_partition c3Channels (by decide) (by decide), rfl⟩

/-- A channel mapping in which two distinct channels (`P`, of string type,
and `Q`, of float type) both declare `error_bar_for: "A"`. -/
def c4MixedChannels : List (String × ChannelSpec) :=
  [("P", ⟨"string", "A"⟩), ("Q", ⟨"float", "A"⟩), ("A", ⟨"float", ""⟩)]

/-- C4 (counterexample): two distinct channels both declare `error_bar_for`
the same target `A`, yet the extractor does not fail: the conflict check
only iterates over the numeric channels, so the string-typed declarer `P`
is never examined and the call returns normally. -/
theorem c4_counterexample :
    ("P", ChannelSpec.mk "string" "A") ∈ c4MixedChannels ∧
    ("Q", ChannelSpec.mk "float" "A") ∈ c4MixedChannels ∧
    ("P" : String) ≠ "Q" ∧
    extractScalarChannels c4MixedChannels = .ok (["A"], [("A", "Q")]) :=
  ⟨by decide, by decide, by decide, rfl⟩

/-- C4 (witness): two float channels both declaring `error_bar_for: "A"`
make the extractor fail with a `ValueError`, and since `A` is the only
conflicted target the message names `A`. -/
theorem c4_witness :
    (∃ t', 2 ≤ (tgtsOf c2Channels).count t' ∧
      extractScalarChannels c2Channels = .error (.valueError (conflictMsg t'))) ∧
    ((∀ u ∈ tgtsOf c2Channels, u ≠ "A" → (tgtsOf c2Channels).count u ≤ 1) →
      extractScalarChannels c2Channels = .error (.valueError (conflictMsg "A")) ∧
      conflictMsg "A" =
        "More than one set of error bars specified for channel \x27"
          ++ "A" ++ "\x27") :=
  c4_conflict_error c2Channels "A" (by decide)

theorem takeLast_eq_drop {α : Type} (n : Nat) (l : List α) :
    takeLast n l = l.drop (l.length - n) := rfl

theorem takeLast_append_one {α : Type} (N : Nat) (hN : 1 ≤ N) (h : List α)
    (x : α) : takeLast N (takeLast N h ++ [x]) = takeLast N (h ++ [x]) := by
  by_cases hk : h.length ≤ N
  · rw [takeLast_of_length_le hk]
  · push_neg at hk
    have h1 : (takeLast N h).length = N := by
      rw [takeLast_length]
      omega
    rw [takeLast_eq_drop N (takeLast N h ++ [x]), takeLast_eq_drop N (h ++ [x]),
      List.length_append, List.length_append, h1, List.length_cons,
      List.length_nil]
    rw [show N + (0 + 1) - N = 1 by omega]
    rw [List.drop_append_of_le_length (by omega),
      List.drop_append_of_le_length (by omega)]
    rw [takeLast_eq_drop N h, List.drop_drop]
    congr 2
    omega

theorem pushPoint_fields (s : RollingSeries) (p : Int × Option Int) :
    (s.pushPoint p).dataName = s.dataName ∧
    (s.pushPoint p).errorBarName = s.errorBarName ∧
    (s.pushPoint p).hasErrorBarItem = s.hasErrorBarItem ∧
    (s.pushPoint p).histLen = s.histLen := by
  unfold RollingSeries.pushPoint
  exact ⟨rfl, rfl, rfl, rfl⟩

theorem pushPoint_values (s : RollingSeries) (p : Int × Option Int)
    (hlen : s.values.length ≤ s.histLen) (hN : 1 ≤ s.histLen) :
    (s.pushPoint p).values = takeLast s.histLen (s.values ++ [p]) := by
  unfold RollingSeries.pushPoint
  by_cases h0 : s.values.length = 0
  · have hv : s.values = [] := List.length_eq_zero.mp h0
    rw [hv]
    simp only [List.length_nil, if_true, List.nil_append]
    rw [takeLast_of_length_le (by simp; omega)]
  · rw [if_neg h0]
    by_cases hcap : s.values.length = s.histLen
    · rw [if_pos hcap, takeLast_eq_drop, List.length_append, List.length_cons,
        List.length_nil]
      rw [show s.values.length + (0 + 1) - s.histLen = 1 by omega,
        List.drop_append_of_le_length (by omega), List.drop_one]
    · rw [if_neg hcap]
      rw [takeLast_of_length_le (by simp only [List.length_append,
        List.length_cons, List.length_nil]; omega)]

theorem pushPoint_rendered (s : RollingSeries) (p : Int × Option Int) :
    (s.pushPoint p).renderedX =
      takeLast (s.pushPoint p).values.length (xIndices s.histLen) ∧
    (s.pushPoint p).renderedY = (s.pushPoint p).values.map (fun q => q.1) := by
  unfold RollingSeries.pushPoint
  exact ⟨rfl, rfl⟩

/-- A snapshot carrying exactly one new rolling sample: value `v` under the
series' point key and magnitude `e` under its error-bar point key. -/
def pointSnapshot (dn en : String) (v e : Int) : Snapshot :=
  { emptySnapshot with
    point := fun n => if n = dn then some v else if n = en then some e else none }

theorem append_pointSnapshot (s : RollingSeries)
    (hne : s.errorBarName ≠ some s.dataName)
    (hEB : s.hasErrorBarItem = s.errorBarName.isSome) (v e : Int) :
    s.append (pointSnapshot s.dataName (s.errorBarName.getD "") v e) =
      .ok (s.pushPoint (v, if s.hasErrorBarItem then some (2 * e) else none)) := by
  unfold RollingSeries.append pointSnapshot
  cases hOpt : s.errorBarName with
  | none =>
    have hitem : s.hasErrorBarItem = false := by
      rw [hEB, hOpt]
      rfl
    simp [hitem]
  | some en =>
    have hitem : s.hasErrorBarItem = true := by
      rw [hEB, hOpt]
      rfl
    have hen : ¬ en = s.dataName := fun h => hne (by rw [hOpt, h])
    simp [hitem, hOpt, hen]

/-- Driving a rolling series with a sequence of `(value, error)` samples,
each delivered through a fresh single-point snapshot. -/
def appendRun (s : RollingSeries) : List (Int × Int) → Except PyErr RollingSeries
  | [] => .ok s
  | p :: rest =>
    match s.append (pointSnapshot s.dataName (s.errorBarName.getD "") p.1 p.2) with
    | .ok s' => appendRun s' rest
    | .error e => .error e

theorem appendRun_ok (N : Nat) (hN : 1 ≤ N) :
    ∀ (ps : List (Int × Int)) (s : RollingSeries)
      (hist : List (Int × Option Int)),
    s.histLen = N →
    s.errorBarName ≠ some s.dataName →
    s.hasErrorBarItem = s.errorBarName.isSome →
    s.values = takeLast N hist →
    s.values.length ≤ N →
    ∃ s', appendRun s ps = .ok s' ∧
      s'.values = takeLast N (hist ++ ps.map (fun p =>
        (p.1, if s.hasErrorBarItem then some (2 * p.2) else none))) ∧
      s'.histLen = N ∧
      s'.hasErrorBarItem = s.hasErrorBarItem ∧
      s'.values.length ≤ N ∧
      (ps = [] → s' = s) ∧
      (ps ≠ [] →
        s'.renderedX = takeLast s'.values.length (xIndices N) ∧
        s'.renderedY = s'.values.map (fun q => q.1)) := by
  intro ps
  induction ps with
  | nil =>
    intro s hist hhl hne hEB hv hlen
    refine ⟨s, rfl, ?_, hhl, rfl, hlen, fun _ => rfl, fun hne' => absurd rfl hne'⟩
    simpa using hv
  | cons p rest ih =>
    intro s hist hhl hne hEB hv hlen
    have happ := append_pointSnapshot s hne hEB p.1 p.2
    set q : Int × Option Int :=
      (p.1, if s.hasErrorBarItem then some (2 * p.2) else none) with hq
    rcases pushPoint_fields s q with ⟨hf1, hf2, hf3, hf4⟩
    have hval : (s.pushPoint q).values = takeLast N (hist ++ [q]) := by
      rw [pushPoint_values s q (by omega) (by omega), hhl, hv]
      exact takeLast_append_one N hN hist q
    have hlen' : (s.pushPoint q).values.length ≤ N := by
      rw [hval, takeLast_length]
      omega
    rcases ih (s.pushPoint q) (hist ++ [q])
        (by rw [hf4, hhl]) (by rw [hf1, hf2]; exact hne)
        (by rw [hf2, hf3]; exact hEB) hval hlen' with
      ⟨s', hrun, hvals, hh, hEB', hlen'', hnil, hren⟩
    refine ⟨s', ?_, ?_, hh, by rw [hEB', hf3], hlen'', by simp, ?_⟩
    · rw [appendRun]
      rw [happ]
      exact hrun
    · rw [hvals, hf3, List.map_cons, List.append_assoc]
      rfl
    · intro _
      rcases Decidable.em (rest = []) with hrnil | hrne
      · have hs' : s' = s.pushPoint q := hnil hrnil
        rcases pushPoint_rendered s q with ⟨hrx, hry⟩
        rw [hs']
        rw [hrx, hry, hhl]
        exact ⟨rfl, rfl⟩
      · exact hren hrne

/-- C5: a rolling series with capacity `N ≥ 1`, fed `k ≥ N` samples (with no
capacity change in between), buffers exactly the last `N` pushed
`(value, error)` rows in append order (the error magnitude stored doubled
when an error-bar item exists), and displays them at the x offsets
`-N..-1`, right-aligned against the most recent point. -/
theorem c5_rolling_window (dn : String) (ebName : Option String) (N : Nat)
    (ps : List (Int × Int)) (hN : 1 ≤ N) (hk : N ≤ ps.length)
    (hne : ebName ≠ some dn) :
    ∃ s', appendRun (mkRollingSeries dn ebName N) ps = .ok s' ∧
      s'.values = takeLast N (ps.map (fun p =>
        (p.1, if ebName.isSome then some (2 * p.2) else none))) ∧
      s'.values.length = N ∧
      s'.renderedX = xIndices N ∧
      s'.renderedY = s'.values.map (fun q => q.1) := by
  rcases appendRun_ok N hN ps (mkRollingSeries dn ebName N) [] rfl hne rfl
      (by simp [mkRollingSeries, takeLast]) (Nat.zero_le N) with
    ⟨s', hrun, hvals, _, _, _, _, hren⟩
  simp only [mkRollingSeries, List.nil_append] at hvals
  have hlen : s'.values.length = N := by
    rw [hvals, takeLast_length, List.length_map]
    omega
  have hne' : ps ≠ [] := by
    intro h
    rw [h] at hk
    simp at hk
    omega
  rcases hren hne' with ⟨hrx, hry⟩
  refine ⟨s', hrun, hvals, hlen, ?_, hry⟩
  rw [hrx, hlen]
  exact takeLast_of_length_le (by rw [xIndices_length])

/-- C5 (witness): capacity 2, three appends of (10, 1), (20, 2), (30, 3):
the buffer holds the last two stored rows (20, 4), (30, 6) — errors stored
doubled — at offsets [-2, -1]. -/
theorem c5_witness :
    ∃ s', appendRun (mkRollingSeries "v" (some "e") 2)
        ([(10, 1), (20, 2), (30, 3)] : List (Int × Int)) = .ok s' ∧
      s'.values = takeLast 2 (([(10, 1), (20, 2), (30, 3)] : List (Int × Int)).map
        (fun p => (p.1, if (some "e").isSome then some (2 * p.2) else none))) ∧
      s'.values.length = 2 ∧
      s'.renderedX = xIndices 2 ∧
      s'.renderedY = s'.values.map (fun q => q.1) :=
  c5_rolling_window "v" (some "e") 2 [(10, 1), (20, 2), (30, 3)]
    (by decide) (by decide) (by decide)

theorem set_history_length_pos (s : RollingSeries) (n : Nat) (hn : 1 ≤ n) :
    s.set_history_length (n : Int) =
      .ok { s with
            histLen := n
            values :=
              if n < s.values.length then takeLast n s.values else s.values } := by
  unfold RollingSeries.set_history_length
  rw [if_neg (by omega)]
  simp only [Int.toNat_natCast]

/-- C6: shrinking the history length to `m` below the current buffer size
truncates the buffer to its most recent `m` rows; growing it back to
`M > m` afterwards does not restore the evicted rows; and
`set_history_length` fails its assertion for every `n ≤ 0`. -/
theorem c6_set_history_length (s : RollingSeries) (m M : Nat)
    (hm : 1 ≤ m) (hlt : m < s.values.length) (hM : m < M) :
    (∃ s₁, s.set_history_length (m : Int) = .ok s₁ ∧
       s₁.values = takeLast m s.values ∧ s₁.values.length = m ∧
       ∃ s₂, s₁.set_history_length (M : Int) = .ok s₂ ∧
         s₂.values = takeLast m s.values) ∧
    (∀ n : Int, n ≤ 0 →
       s.set_history_length n =
         .error (.assertionError "Invalid history length")) := by
  constructor
  · rw [set_history_length_pos s m hm, if_pos hlt]
    have hlen1 : (takeLast m s.values).length = m := by
      rw [takeLast_length]
      omega
    refine ⟨_, rfl, rfl, hlen1, ?_⟩
    rw [set_history_length_pos _ M (by omega)]
    refine ⟨_, rfl, ?_⟩
    show (if M < (takeLast m s.values).length then takeLast M (takeLast m s.values)
          else takeLast m s.values)
        = takeLast m s.values
    rw [if_neg (by rw [hlen1]; omega)]
  · intro n hn
    unfold RollingSeries.set_history_length
    rw [if_pos hn]

/-- A rolling series whose buffer currently holds three rows under
capacity 5. -/
def c6Series : RollingSeries :=
  { mkRollingSeries "v" none 5 with values := [(1, none), (2, none), (3, none)] }

/-- C6 (witness): shrinking the capacity of a three-row buffer to 1 keeps
only the newest row (3, none); growing back to 5 does not restore the
evicted rows; `set_history_length 0` and any non-positive argument fail. -/
theorem c6_witness :
    (∃ s₁, c6Series.set_history_length ((1 : Nat) : Int) = .ok s₁ ∧
       s₁.values = takeLast 1 c6Series.values ∧ s₁.values.length = 1 ∧
       ∃ s₂, s₁.set_history_length ((5 : Nat) : Int) = .ok s₂ ∧
         s₂.values = takeLast 1 c6Series.values) ∧
    (∀ n : Int, n ≤ 0 →
       c6Series.set_history_length n =
         .error (.assertionError "Invalid history length")) :=
  c6_set_history_length c6Series 1 5 (by decide) (by decide) (by decide)

/-- C9 (amended): missing keys and short sequences are treated as
not-yet-available by the X-Y series update (defaulting lookups: a missing
Y channel reads as `[]` and renders nothing on a fresh series), by both
controllers' schema / x / phase gating (an initialised X-Y controller with
a missing or empty `points.axis_0` defers silently), and by the
coordinator's title / axes gating — all silent no-ops; but a rolling
series' `append` on a snapshot lacking its point key, or lacking its
error-bar point key while the point key is present, performs a direct dict
access and raises `KeyError` (which escapes `data_changed`), rather than
deferring. -/
theorem c9_missing_data :
    (∀ (s : XYSeries) (x : List Int) (data : Snapshot),
       s.numCurrentPoints = 0 → data.pointsChannel s.dataName = [] →
       s.update x data = s) ∧
    (∀ (w : XYWidgetState) (data : Snapshot),
       w.seriesInitialised = false → data.channels = none →
       xyDataChanged w data = (w, none)) ∧
    (∀ (w : XYWidgetState) (data : Snapshot),
       w.seriesInitialised = true → data.axis0 = [] →
       xyDataChanged w data = (w, none)) ∧
    (∀ (w : RollingWidgetState) (data : Snapshot),
       w.seriesInitialised = false → data.channels = none →
       rollingDataChanged w data = (w, none)) ∧
    (∀ (w : RollingWidgetState) (data : Snapshot),
       w.seriesInitialised = true → data.pointPhase = none →
       rollingDataChanged w data = (w, none)) ∧
    (∀ (m : MainState) (data : Snapshot),
       m.titleSet = false → data.fragmentFqn = none →
       mainDataChanged m data = (m, none)) ∧
    (∀ (m : MainState) (data : Snapshot),
       m.titleSet = true → m.plotInitialised = false → data.axes = none →
       mainDataChanged m data = (m, none)) ∧
    (∀ (s : RollingSeries) (data : Snapshot),
       data.point s.dataName = none →
       s.append data = .error (.keyError ("ndscan.point." ++ s.dataName))) ∧
    (∀ (s : RollingSeries) (data : Snapshot) (v : Int),
       s.hasErrorBarItem = true →
       data.point s.dataName = some v →
       data.point (s.errorBarName.getD "") = none →
       s.append data =
         .error (.keyError ("ndscan.point." ++ s.errorBarName.getD ""))) := by
  refine ⟨?_, ?_, ?_, ?_, ?_, ?_, ?_, ?_, ?_⟩
  · intro s x data h0 hy
    simp only [XYSeries.update, XYSeries.numToShowOf, hy, List.length_nil,
      Nat.min_zero, Nat.zero_min, h0]
    cases hEB : s.hasErrorBarItem <;> simp
  · intro w data h1 h2
    simp [xyDataChanged, h1, h2]
  · intro w data h1 h2
    simp [xyDataChanged, h1, xyDispatchPoints, h2]
  · intro w data h1 h2
    simp [rollingDataChanged, h1, h2]
  · intro w data h1 h2
    simp [rollingDataChanged, h1, rollingPhaseStep, h2]
  · intro m data h1 h2
    simp [mainDataChanged, h1, h2]
  · intro m data h1 h2 h3
    simp [mainDataChanged, mainAfterTitle, mainAxesStep, h1, h2, h3]
  · intro s data h
    simp [RollingSeries.append, h]
  · intro s data v h1 h2 h3
    simp [RollingSeries.append, h1, h2, h3]

/-- A rolling series for channel `foo`, as a rolling controller would own. -/
def c9Series : RollingSeries := mkRollingSeries "foo" none 1

/-- A rolling widget whose series are initialised, paired with a snapshot
that toggles the phase but carries no `ndscan.point.foo` key. -/
def c9Widget : RollingWidgetState :=
  { seriesInitialised := true, series := [c9Series], pointPhase := false,
    numHistoryBoxValue := 1 }

/-- A snapshot with a toggled phase and no point keys. -/
def c9PhaseSnap : Snapshot := { emptySnapshot with pointPhase := some true }

/-- C9 (counterexample): a rolling controller delivered a phase toggle in a
snapshot lacking the series' point key calls `append`, whose direct
`data["ndscan.point.foo"]` access raises `KeyError`; the exception escapes
`data_changed`, refuting that missing keys never raise. -/
theorem c9_counterexample :
    (rollingDataChanged c9Widget c9PhaseSnap).2 =
      some (.keyError "ndscan.point.foo") := by
  decide

/-- A rolling series with an error-bar item, paired with a snapshot that
carries its point key but not its error-bar point key. -/
def c9ErrSeries : RollingSeries := mkRollingSeries "bar" (some "bar_err") 1

/-- A snapshot carrying only the `ndscan.point.bar` key. -/
def c9ErrSnap : Snapshot :=
  { emptySnapshot with
    point := fun n => if n = "bar" then some 7 else none }

/-- C9 (witness): both failure clauses of the amended claim at concrete
inputs: `append` raises `KeyError` on a snapshot lacking the point key,
and on a snapshot carrying the point key but lacking the error key. -/
theorem c9_witness :
    c9Series.append emptySnapshot =
      .error (.keyError ("ndscan.point." ++ "foo")) ∧
    c9ErrSeries.append c9ErrSnap =
      .error (.keyError ("ndscan.point." ++ "bar_err")) :=
  ⟨c9_missing_data.2.2.2.2.2.2.2.1 c9Series emptySnapshot rfl,
   c9_missing_data.2.2.2.2.2.2.2.2 c9ErrSeries c9ErrSnap 7 rfl (by decide)
     (by decide)⟩

/-- C10: the rolling controller's `point_phase` flag starts `False`; a
`data_changed` call on an initialised controller appends to its series iff
the snapshot's phase value is present (not `None`) and differs from the
stored flag, which is then updated (only when the append loop did not
raise); consequently a first delivered sample whose phase value equals
`False` triggers no append — even through the lazy series construction
path, every series is still empty and nothing is rendered. -/
theorem c10_phase_gate (w : RollingWidgetState) (data : Snapshot)
    (hw : w.seriesInitialised = true) :
    mkRollingWidget.pointPhase = false ∧
    (data.pointPhase = none → rollingDataChanged w data = (w, none)) ∧
    (data.pointPhase = some w.pointPhase →
      rollingDataChanged w data = (w, none)) ∧
    (∀ p, data.pointPhase = some p → p ≠ w.pointPhase →
      (rollingDataChanged w data).1.series = (appendAll w.series data).1 ∧
      (rollingDataChanged w data).2 = (appendAll w.series data).2 ∧
      ((appendAll w.series data).2 = none →
        (rollingDataChanged w data).1.pointPhase = p) ∧
      ((appendAll w.series data).2 ≠ none →
        (rollingDataChanged w data).1.pointPhase = w.pointPhase)) ∧
    (∀ data₂ : Snapshot, data₂.pointPhase = some false →
      ((rollingDataChanged mkRollingWidget data₂).1.series.all
        (fun s => s.values.isEmpty)) = true ∧
      (rollingDataChanged mkRollingWidget data₂).1.pointPhase = false) := by
  refine ⟨rfl, ?_, ?_, ?_, ?_⟩
  · intro h
    simp [rollingDataChanged, hw, rollingPhaseStep, h]
  · intro h
    simp [rollingDataChanged, hw, rollingPhaseStep, h]
  · intro p hp hne
    rcases happ : appendAll w.series data with ⟨ss, e⟩
    cases e with
    | none =>
      have hres : rollingDataChanged w data =
          ({ w with series := ss, pointPhase := p }, none) := by
        simp only [rollingDataChanged, hw, if_true, rollingPhaseStep, hp]
        rw [if_neg hne, happ]
      rw [hres]
      exact ⟨rfl, rfl, fun _ => rfl, fun hcon => absurd rfl hcon⟩
    | some err =>
      have hres : rollingDataChanged w data =
          ({ w with series := ss }, some err) := by
        simp only [rollingDataChanged, hw, if_true, rollingPhaseStep, hp]
        rw [if_neg hne, happ]
      rw [hres]
      refine ⟨rfl, rfl, ?_, fun _ => rfl⟩
      intro hcon
      simp at hcon
  · intro data₂ hp2
    have hstep : ∀ w' : RollingWidgetState, w'.pointPhase = false →
        rollingPhaseStep w' data₂ = (w', none) := by
      intro w' hw'
      simp [rollingPhaseStep, hp2, hw']
    cases hch : data₂.channels with
    | none =>
      simp [rollingDataChanged, mkRollingWidget, hch]
    | some channels =>
      cases hex : extractScalarChannels channels with
      | error e =>
        cases e <;>
          simp [rollingDataChanged, mkRollingWidget, hch, hex]
      | ok pr =>
        rcases pr with ⟨dataNames, ebn⟩
        have hred : rollingDataChanged mkRollingWidget data₂ =
            rollingPhaseStep
              { mkRollingWidget with
                series := [] ++ dataNames.map (fun name =>
                  mkRollingSeries name (ebn.lookup name)
                    mkRollingWidget.numHistoryBoxValue),
                seriesInitialised := true } data₂ := by
          simp only [rollingDataChanged, mkRollingWidget, hch, hex,
            Bool.false_eq_true, if_false]
        rw [hred, hstep _ rfl]
        constructor
        · simp only [List.nil_append, List.all_eq_true]
          intro s hs
          rcases List.mem_map.mp hs with ⟨nm, _, heq⟩
          rw [← heq]
          rfl
        · rfl

/-- An initialised rolling widget with one series for channel `v`. -/
def c10Widget : RollingWidgetState :=
  { seriesInitialised := true, series := [mkRollingSeries "v" none 2],
    pointPhase := false, numHistoryBoxValue := 2 }

/-- A snapshot toggling the phase to `True` and carrying the point value. -/
def c10Snap : Snapshot :=
  { emptySnapshot with
    pointPhase := some true,
    point := fun n => if n = "v" then some 7 else none }

/-- C10 (witness): the phase-gating characterisation at a concrete
initialised controller and a concrete phase-toggling snapshot. -/
theorem c10_witness :
    mkRollingWidget.pointPhase = false ∧
    (c10Snap.pointPhase = none →
      rollingDataChanged c10Widget c10Snap = (c10Widget, none)) ∧
    (c10Snap.pointPhase = some c10Widget.pointPhase →
      rollingDataChanged c10Widget c10Snap = (c10Widget, none)) ∧
    (∀ p, c10Snap.pointPhase = some p → p ≠ c10Widget.pointPhase →
      (rollingDataChanged c10Widget c10Snap).1.series =
        (appendAll c10Widget.series c10Snap).1 ∧
      (rollingDataChanged c10Widget c10Snap).2 =
        (appendAll c10Widget.series c10Snap).2 ∧
      ((appendAll c10Widget.series c10Snap).2 = none →
        (rollingDataChanged c10Widget c10Snap).1.pointPhase = p) ∧
      ((appendAll c10Widget.series c10Snap).2 ≠ none →
        (rollingDataChanged c10Widget c10Snap).1.pointPhase =
          c10Widget.pointPhase)) ∧
    (∀ data₂ : Snapshot, data₂.pointPhase = some false →
      ((rollingDataChanged mkRollingWidget data₂).1.series.all
        (fun s => s.values.isEmpty)) = true ∧
      (rollingDataChanged mkRollingWidget data₂).1.pointPhase = false) :=
  c10_phase_gate c10Widget c10Snap rfl

theorem sameKind_refl (p : PlotWidgetState) : p.sameKind p = true := by
  cases p <;> simp [PlotWidgetState.sameKind]

/-- C8: once the title key is present, the coordinator reacts to the
decoded axes blob: length 0 instantiates the rolling controller, length 1
instantiates the X-Y controller bound to the single axis descriptor, and
length ≥ 2 only displays the unsupported-dimension message (containing the
axis count) without instantiating a controller; and once any controller is
instantiated it is never replaced (its variant and bound axis persist
through every later `data_changed`). -/
theorem c8_coordinator (m : MainState) (data : Snapshot) (axs : List Axis)
    (htitle : m.titleSet = true ∨ data.fragmentFqn.isSome = true)
    (hpi : m.plotInitialised = false)
    (haxes : data.axes = some axs) :
    (axs = [] →
      ∃ w, (mainDataChanged m data).1.plot = some (.rolling w) ∧
        (mainDataChanged m data).1.plotInitialised = true) ∧
    (∀ a, axs = [a] →
      ∃ w, (mainDataChanged m data).1.plot = some (.xy a w) ∧
        (mainDataChanged m data).1.plotInitialised = true) ∧
    (2 ≤ axs.length →
      (mainDataChanged m data).1.plot = m.plot ∧
      (mainDataChanged m data).1.plotInitialised = false ∧
      (mainDataChanged m data).1.messageText =
        toString axs.length ++ "-dimensional scans are not yet supported" ∧
      (mainDataChanged m data).1.messageShown = true ∧
      (mainDataChanged m data).2 = none) ∧
    (∀ (m₂ : MainState) (p : PlotWidgetState) (data₂ : Snapshot),
      m₂.plotInitialised = true → m₂.plot = some p →
      ∃ p', (mainDataChanged m₂ data₂).1.plot = some p' ∧
        p'.sameKind p = true ∧
        (mainDataChanged m₂ data₂).1.plotInitialised = true) := by
  have key : ∃ mT : MainState, mainDataChanged m data = mainAfterTitle mT data ∧
      mT.plotInitialised = m.plotInitialised ∧ mT.plot = m.plot ∧
      mT.messageText = m.messageText := by
    cases ht : m.titleSet
    · rcases htitle with h | h
      · rw [ht] at h
        simp at h
      · cases hf : data.fragmentFqn with
        | none =>
          rw [hf] at h
          simp at h
        | some fqn =>
          refine ⟨{ m with titleSet := true, windowTitle := fqn ++ " – ndscan" },
            ?_, rfl, rfl, rfl⟩
          simp [mainDataChanged, ht, hf]
    · exact ⟨m, by simp [mainDataChanged, ht], rfl, rfl, rfl⟩
  rcases key with ⟨mT, hkey, hT1, hT2, hT3⟩
  have hTpi : mT.plotInitialised = false := hT1.trans hpi
  refine ⟨?_, ?_, ?_, ?_⟩
  · intro h0
    subst h0
    have haxstep : mainAxesStep mT data =
        ({ mT with
           plot := some (.rolling mkRollingWidget)
           plotInitialised := true
           messageShown := false }, true) := by
      simp [mainAxesStep, hTpi, haxes]
    rcases hrr : rollingDataChanged mkRollingWidget data with ⟨w', e⟩
    refine ⟨w', ?_, ?_⟩ <;>
      rw [hkey] <;>
      simp [mainAfterTitle, haxstep, mainDispatch, plotDataChanged, hrr]
  · intro a h1
    subst h1
    have haxstep : mainAxesStep mT data =
        ({ mT with
           plot := some (.xy a mkXYWidget)
           plotInitialised := true
           messageShown := false }, true) := by
      simp [mainAxesStep, hTpi, haxes]
    rcases hxx : xyDataChanged mkXYWidget data with ⟨w', e⟩
    refine ⟨w', ?_, ?_⟩ <;>
      rw [hkey] <;>
      simp [mainAfterTitle, haxstep, mainDispatch, plotDataChanged, hxx]
  · intro h2
    have hl0 : ¬ axs.length = 0 := by omega
    have hl1 : ¬ axs.length = 1 := by omega
    have haxstep : mainAxesStep mT data =
        ({ mT with
           messageText :=
             toString axs.length ++ "-dimensional scans are not yet supported"
           messageShown := true }, false) := by
      simp [mainAxesStep, hTpi, haxes, hl0, hl1]
    rw [hkey]
    simp only [mainAfterTitle, haxstep, Bool.false_eq_true, if_false]
    refine ⟨hT2, hTpi, ?_, ?_, ?_⟩ <;> simp
  · intro m₂ p data₂ hpi₂ hplot₂
    have hafter : ∀ mX : MainState, mX.plotInitialised = true →
        mX.plot = some p →
        ∃ p', (mainAfterTitle mX data₂).1.plot = some p' ∧
          p'.sameKind p = true ∧
          (mainAfterTitle mX data₂).1.plotInitialised = true := by
      intro mX h1 h2
      have haxstep : mainAxesStep mX data₂ = (mX, true) := by
        simp [mainAxesStep, h1]
      cases p with
      | xy a wx =>
        rcases hxx : xyDataChanged wx data₂ with ⟨w', e⟩
        refine ⟨.xy a w', ?_, ?_, ?_⟩ <;>
          simp [mainAfterTitle, haxstep, mainDispatch, h2, plotDataChanged,
            hxx, PlotWidgetState.sameKind, h1]
      | rolling wr =>
        rcases hrr : rollingDataChanged wr data₂ with ⟨w', e⟩
        refine ⟨.rolling w', ?_, ?_, ?_⟩ <;>
          simp [mainAfterTitle, haxstep, mainDispatch, h2, plotDataChanged,
            hrr, PlotWidgetState.sameKind, h1]
    cases ht₂ : m₂.titleSet
    · cases hf₂ : data₂.fragmentFqn with
      | none =>
        refine ⟨p, ?_, sameKind_refl p, ?_⟩ <;>
          simp [mainDataChanged, ht₂, hf₂, hplot₂, hpi₂]
      | some fqn =>
        have := hafter
          { m₂ with titleSet := true, windowTitle := fqn ++ " – ndscan" }
          hpi₂ hplot₂
        rcases this with ⟨p', hp1, hp2, hp3⟩
        refine ⟨p', ?_, hp2, ?_⟩ <;>
          rw [show mainDataChanged m₂ data₂ = mainAfterTitle
            { m₂ with titleSet := true, windowTitle := fqn ++ " – ndscan" }
            data₂ from by simp [mainDataChanged, ht₂, hf₂]]
        · exact hp1
        · exact hp3
    · rcases hafter m₂ hpi₂ hplot₂ with ⟨p', hp1, hp2, hp3⟩
      refine ⟨p', ?_, hp2, ?_⟩ <;>
        rw [show mainDataChanged m₂ data₂ = mainAfterTitle m₂ data₂ from by
          simp [mainDataChanged, ht₂]]
      · exact hp1
      · exact hp3

/-- A coordinator state whose title step has already completed. -/
def c8Main : MainState := { mkMainState "1" with titleSet := true }

/-- A snapshot whose axes blob decodes to the empty sequence. -/
def c8Snap : Snapshot := { emptySnapshot with axes := some [] }

/-- C8 (witness): with the title set and an empty axes sequence delivered,
the coordinator instantiates the rolling controller (the other branches
hold vacuously at this input), and the persistence clause holds. -/
theorem c8_witness :
    (([] : List Axis) = [] →
      ∃ w, (mainDataChanged c8Main c8Snap).1.plot = some (.rolling w) ∧
        (mainDataChanged c8Main c8Snap).1.plotInitialised = true) ∧
    (∀ a, ([] : List Axis) = [a] →
      ∃ w, (mainDataChanged c8Main c8Snap).1.plot = some (.xy a w) ∧
        (mainDataChanged c8Main c8Snap).1.plotInitialised = true) ∧
    (2 ≤ ([] : List Axis).length →
      (mainDataChanged c8Main c8Snap).1.plot = c8Main.plot ∧
      (mainDataChanged c8Main c8Snap).1.plotInitialised = false ∧
      (mainDataChanged c8Main c8Snap).1.messageText =
        toString ([] : List Axis).length
          ++ "-dimensional scans are not yet supported" ∧
      (mainDataChanged c8Main c8Snap).1.messageShown = true ∧
      (mainDataChanged c8Main c8Snap).2 = none) ∧
    (∀ (m₂ : MainState) (p : PlotWidgetState) (data₂ : Snapshot),
      m₂.plotInitialised = true → m₂.plot = some p →
      ∃ p', (mainDataChanged m₂ data₂).1.plot = some p' ∧
        p'.sameKind p = true ∧
        (mainDataChanged m₂ data₂).1.plotInitialised = true) :=
  c8_coordinator c8Main c8Snap [] (Or.inl rfl) rfl rfl
